import Mathlib

/-!
Shallow embedding of the delivery-escrow program in `src/lib1.rs`
(module `autonomous_vehicle_payments`).

Account addresses (Solana `Pubkey`) are modelled as natural numbers.
`u64`/`u16` quantities are modelled as `Nat` together with explicit
checked-arithmetic primitives that mirror Rust's `u64::checked_*`
(overflow meaning a result above `2^64 - 1`).  Each instruction body is
translated to a pure function over the records it reads and writes,
returning `Except TxError` — an error models the transaction aborting,
with the external runtime rolling back every account (the program's
all-or-nothing execution contract).
-/

abbrev Pubkey := Nat

instance {ε α : Type} [DecidableEq ε] [DecidableEq α] : DecidableEq (Except ε α) :=
  fun x y =>
    match x, y with
    | .ok a, .ok b =>
        if h : a = b then .isTrue (by rw [h])
        else .isFalse (by intro hc; injection hc; contradiction)
    | .error e, .error f =>
        if h : e = f then .isTrue (by rw [h])
        else .isFalse (by intro hc; injection hc; contradiction)
    | .ok _, .error _ => .isFalse (by intro hc; exact Except.noConfusion hc)
    | .error _, .ok _ => .isFalse (by intro hc; exact Except.noConfusion hc)

/-- `u64::MAX`, the upper bound of the unsigned amount domain. -/
def u64Max : Nat := 2 ^ 64 - 1

/-- Rust `u64::checked_mul`. -/
def u64_checked_mul (a b : Nat) : Option Nat :=
  if a * b ≤ u64Max then some (a * b) else none

/-- Rust `u64::checked_div` (fails only on a zero divisor). -/
def u64_checked_div (a b : Nat) : Option Nat :=
  if b = 0 then none else some (a / b)

/-- Rust `u64::checked_sub`. -/
def u64_checked_sub (a b : Nat) : Option Nat :=
  if b ≤ a then some (a - b) else none

/-- Rust `u64::checked_add`. -/
def u64_checked_add (a b : Nat) : Option Nat :=
  if a + b ≤ u64Max then some (a + b) else none

/-- The `Config` account (src/lib1.rs, `pub struct Config`). -/
structure Config where
  bump : Nat
  authority : Pubkey
  is_active : Bool
  is_paused : Bool
  fee_bps : Nat
  treasury : Pubkey
  version : Nat
deriving DecidableEq, Repr

/-- The `Vehicle` account (src/lib1.rs, `pub struct Vehicle`). -/
structure Vehicle where
  bump : Nat
  vehicle_id : String
  vehicle_operator : Pubkey
  location : String
  is_active : Bool
  is_busy : Bool
  total_deliveries : Nat
  registered_at : Int
deriving DecidableEq, Repr

/-- `DeliveryStatus` (src/lib1.rs). -/
inductive DeliveryStatus where
  | Pending
  | InProgress
  | Completed
  | Cancelled
deriving DecidableEq, Repr

/-- The `Delivery` account (src/lib1.rs, `pub struct Delivery`). -/
structure Delivery where
  bump : Nat
  delivery_id : Nat
  customer : Pubkey
  payment_amount : Nat
  pickup_location : String
  delivery_location : String
  status : DeliveryStatus
  assigned_vehicle : Option Pubkey
  created_at : Int
  accepted_at : Option Int
  completed_at : Option Int
deriving DecidableEq, Repr

/-- `ErrorCode` (src/lib1.rs). -/
inductive ErrorCode where
  | MathOverflow
  | ConfigInactive
  | InvalidAmount
  | InvalidParameter
  | VehicleNotAvailable
  | InvalidDeliveryStatus
  | Unauthorized
  | InvalidTreasury
deriving DecidableEq, Repr

/-- Transaction-level outcome: a typed program error, a failure of the
system-program transfer invoked by `create_delivery_order` (insufficient
customer funds), or a raw lamport balance over/underflow in the direct
lamport moves of `complete_delivery` (either of which aborts the
transaction at the runtime level). -/
inductive TxError where
  | program (e : ErrorCode)
  | insufficientFunds
  | lamportArith
deriving DecidableEq, Repr

/-- `initialize_config` (src/lib1.rs lines 13-27): unconditionally
creates the singleton config with `is_active = true`, `is_paused = false`,
`version = 1`; `fee_bps` is stored with no upper-bound check. -/
def initialize_config (bump : Nat) (authority : Pubkey) (fee_bps : Nat)
    (treasury : Pubkey) : Config :=
  { bump := bump
    authority := authority
    is_active := true
    is_paused := false
    fee_bps := fee_bps
    treasury := treasury
    version := 1 }

/-- `register_vehicle` (src/lib1.rs lines 32-54). -/
def register_vehicle (config : Config) (bump : Nat) (vehicle_id : String)
    (vehicle_operator : Pubkey) (location : String) (now : Int) :
    Except TxError Vehicle :=
  if vehicle_id.utf8ByteSize ≤ 32 then
    if location.utf8ByteSize ≤ 64 then
      if config.is_active && !config.is_paused then
        .ok { bump := bump
              vehicle_id := vehicle_id
              vehicle_operator := vehicle_operator
              location := location
              is_active := true
              is_busy := false
              total_deliveries := 0
              registered_at := now }
      else .error (.program .ConfigInactive)
    else .error (.program .InvalidParameter)
  else .error (.program .InvalidParameter)

/-- `create_delivery_order` (src/lib1.rs lines 60-99): validates the
inputs, transfers `payment_amount` lamports from the customer to the
fresh escrow account, and writes the new `Delivery` with status
`Pending` and no assigned vehicle.  Returns the new delivery, the
customer's remaining lamports and the escrow's held balance. -/
def create_delivery_order (config : Config) (bump : Nat)
    (delivery_id payment_amount : Nat) (pickup_location delivery_location : String)
    (customer : Pubkey) (customer_lamports : Nat) (now : Int) :
    Except TxError (Delivery × Nat × Nat) :=
  if pickup_location.utf8ByteSize ≤ 64 then
    if delivery_location.utf8ByteSize ≤ 64 then
      if payment_amount > 0 then
        if config.is_active && !config.is_paused then
          if payment_amount ≤ customer_lamports then
            .ok ({ bump := bump
                   delivery_id := delivery_id
                   customer := customer
                   payment_amount := payment_amount
                   pickup_location := pickup_location
                   delivery_location := delivery_location
                   status := .Pending
                   assigned_vehicle := none
                   created_at := now
                   accepted_at := none
                   completed_at := none },
                  customer_lamports - payment_amount,
                  payment_amount)
          else .error .insufficientFunds
        else .error (.program .ConfigInactive)
      else .error (.program .InvalidAmount)
    else .error (.program .InvalidParameter)
  else .error (.program .InvalidParameter)

/-- The accounts read and written by `accept_delivery`. -/
structure AcceptState where
  config : Config
  vehicle : Vehicle
  delivery : Delivery
deriving DecidableEq, Repr

/-- `accept_delivery` (src/lib1.rs lines 102-119).  `vehicle_key` is
`ctx.accounts.vehicle.key()`; `operator_signer` is the key of the
`operator: Signer` account of the `AcceptDelivery` context — the
handler requires it to be present but never reads or compares it, which
is why it is an unused parameter here, exactly as in the source. -/
def accept_delivery (st : AcceptState) (vehicle_key operator_signer : Pubkey)
    (now : Int) : Except TxError AcceptState :=
  if st.config.is_active && !st.config.is_paused then
    if st.vehicle.is_active && !st.vehicle.is_busy then
      if st.delivery.status = DeliveryStatus.Pending then
        .ok { st with
              vehicle := { st.vehicle with is_busy := true }
              delivery := { st.delivery with
                            status := .InProgress
                            assigned_vehicle := some vehicle_key
                            accepted_at := some now } }
      else .error (.program .InvalidDeliveryStatus)
    else .error (.program .VehicleNotAvailable)
  else .error (.program .ConfigInactive)

/-- The accounts read and written by `complete_delivery`, with the raw
lamport balances of the escrow PDA, the vehicle-operator account and the
treasury account. -/
structure CompleteState where
  config : Config
  delivery : Delivery
  vehicle : Vehicle
  escrow_lamports : Nat
  vehicle_operator_lamports : Nat
  treasury_lamports : Nat
deriving DecidableEq, Repr

/-- The fee computation of `complete_delivery` (src/lib1.rs lines
138-142): `payment_amount.checked_mul(fee_bps as u64)` followed by
`.checked_div(10000)`, each `None` surfacing as `MathOverflow`. -/
def fee_calc (payment_amount fee_bps : Nat) : Option Nat :=
  (u64_checked_mul payment_amount fee_bps).bind
    (fun p => u64_checked_div p 10000)

/-- `complete_delivery` (src/lib1.rs lines 122-175), together with the
account validation of its `CompleteDelivery` context (lines 267-303):
Anchor evaluates the `constraint = treasury.key() == config.treasury`
before the handler body runs, so a treasury mismatch aborts with
`InvalidTreasury` ahead of every body check.  `vehicle_key` is
`ctx.accounts.vehicle.key()` and `treasury_key` the key of the supplied
`treasury` account.  The four raw lamport moves are checked in source
order (escrow debit, operator credit, escrow debit, treasury credit). -/
def complete_delivery (st : CompleteState) (vehicle_key treasury_key : Pubkey)
    (now : Int) : Except TxError CompleteState :=
  if treasury_key = st.config.treasury then
    if st.config.is_active && !st.config.is_paused then
      if st.delivery.status = DeliveryStatus.InProgress then
        if st.delivery.assigned_vehicle = some vehicle_key then
          match fee_calc st.delivery.payment_amount st.config.fee_bps with
          | none => .error (.program .MathOverflow)
          | some fee =>
            match u64_checked_sub st.delivery.payment_amount fee with
            | none => .error (.program .MathOverflow)
            | some vehicle_payment =>
              if vehicle_payment ≤ st.escrow_lamports then
                if st.vehicle_operator_lamports + vehicle_payment ≤ u64Max then
                  if fee ≤ st.escrow_lamports - vehicle_payment then
                    if st.treasury_lamports + fee ≤ u64Max then
                      match u64_checked_add st.vehicle.total_deliveries 1 with
                      | none => .error (.program .MathOverflow)
                      | some td =>
                        .ok { st with
                              delivery := { st.delivery with
                                            status := .Completed
                                            completed_at := some now }
                              vehicle := { st.vehicle with
                                           is_busy := false
                                           total_deliveries := td }
                              escrow_lamports :=
                                st.escrow_lamports - vehicle_payment - fee
                              vehicle_operator_lamports :=
                                st.vehicle_operator_lamports + vehicle_payment
                              treasury_lamports :=
                                st.treasury_lamports + fee }
                    else .error .lamportArith
                  else .error .lamportArith
                else .error .lamportArith
              else .error .lamportArith
        else .error (.program .Unauthorized)
      else .error (.program .InvalidDeliveryStatus)
    else .error (.program .ConfigInactive)
  else .error (.program .InvalidTreasury)

/-- Runtime rollback semantics for `accept_delivery`: a failed
transaction leaves every account exactly as before the call. -/
def run_accept (st : AcceptState) (vehicle_key operator_signer : Pubkey)
    (now : Int) : AcceptState × Option TxError :=
  match accept_delivery st vehicle_key operator_signer now with
  | .ok st2 => (st2, none)
  | .error e => (st, some e)

/-- Runtime rollback semantics for `complete_delivery`: a failed
transaction leaves every account exactly as before the call. -/
def run_complete (st : CompleteState) (vehicle_key treasury_key : Pubkey)
    (now : Int) : CompleteState × Option TxError :=
  match complete_delivery st vehicle_key treasury_key now with
  | .ok st2 => (st2, none)
  | .error e => (st, some e)

/-! ### Chain-level model

One program deployment: the singleton config plus association lists of
vehicle accounts (keyed by the vehicle PDA), delivery and escrow
accounts (keyed by `(customer, delivery_id)`, the PDA seed components),
and raw system-account lamport balances.  A `Step` is one successfully
executed instruction; a failed instruction changes nothing (runtime
rollback), so it contributes no step.  Account creation via Anchor
`init` requires the derived slot to be empty. -/

def alist_get {α β : Type} [DecidableEq α] (l : List (α × β)) (k : α) :
    Option β :=
  match l with
  | [] => none
  | (k2, v) :: t => if k = k2 then some v else alist_get t k

def alist_set {α β : Type} [DecidableEq α] (l : List (α × β)) (k : α) (v : β) :
    List (α × β) :=
  match l with
  | [] => [(k, v)]
  | (k2, v2) :: t =>
      if k = k2 then (k, v) :: t else (k2, v2) :: alist_set t k v

/-- Key of a delivery/escrow PDA: the `(customer, delivery_id)` seeds. -/
abbrev DKey := Pubkey × Nat

structure Chain where
  config : Config
  vehicles : List (Pubkey × Vehicle)
  deliveries : List (DKey × Delivery)
  escrows : List (DKey × Nat)
  lamports : List (Pubkey × Nat)
deriving DecidableEq, Repr

/-- State right after `initialize_config`: the config singleton exists,
no vehicle, delivery or escrow accounts yet, arbitrary external
system-account balances. -/
def Chain.start (bump : Nat) (authority : Pubkey) (fee_bps : Nat)
    (treasury : Pubkey) (lamports : List (Pubkey × Nat)) : Chain :=
  { config := initialize_config bump authority fee_bps treasury
    vehicles := []
    deliveries := []
    escrows := []
    lamports := lamports }

/-- One successfully executed instruction. -/
inductive Step : Chain → Chain → Prop where
  | register (s : Chain) (vk : Pubkey) (vid : String) (op : Pubkey)
      (loc : String) (bump : Nat) (now : Int) (v : Vehicle)
      (hnew : alist_get s.vehicles vk = none)
      (hok : register_vehicle s.config bump vid op loc now = .ok v) :
      Step s { s with vehicles := alist_set s.vehicles vk v }
  | create (s : Chain) (ck : Pubkey) (did pa : Nat) (pl dl : String)
      (bump : Nat) (now : Int) (cl : Nat) (d : Delivery) (cl2 el : Nat)
      (hnewd : alist_get s.deliveries (ck, did) = none)
      (hnewe : alist_get s.escrows (ck, did) = none)
      (hcl : alist_get s.lamports ck = some cl)
      (hok : create_delivery_order s.config bump did pa pl dl ck cl now
              = .ok (d, cl2, el)) :
      Step s { s with deliveries := alist_set s.deliveries (ck, did) d
                      escrows := alist_set s.escrows (ck, did) el
                      lamports := alist_set s.lamports ck cl2 }
  | accept (s : Chain) (ck : Pubkey) (did : Nat) (vk sg : Pubkey) (now : Int)
      (v : Vehicle) (d : Delivery) (st2 : AcceptState)
      (hv : alist_get s.vehicles vk = some v)
      (hd : alist_get s.deliveries (ck, did) = some d)
      (hok : accept_delivery ⟨s.config, v, d⟩ vk sg now = .ok st2) :
      Step s { s with vehicles := alist_set s.vehicles vk st2.vehicle
                      deliveries := alist_set s.deliveries (ck, did) st2.delivery }
  | complete (s : Chain) (ck : Pubkey) (did : Nat) (vk vo tk : Pubkey)
      (now : Int) (v : Vehicle) (d : Delivery) (es vol tl : Nat)
      (st2 : CompleteState)
      (hv : alist_get s.vehicles vk = some v)
      (hd : alist_get s.deliveries (ck, did) = some d)
      (he : alist_get s.escrows (ck, did) = some es)
      (hvo : alist_get s.lamports vo = some vol)
      (htl : alist_get s.lamports tk = some tl)
      (hok : complete_delivery ⟨s.config, d, v, es, vol, tl⟩ vk tk now = .ok st2) :
      Step s { s with deliveries := alist_set s.deliveries (ck, did) st2.delivery
                      vehicles := alist_set s.vehicles vk st2.vehicle
                      escrows := alist_set s.escrows (ck, did) st2.escrow_lamports
                      lamports := alist_set
                        (alist_set s.lamports vo st2.vehicle_operator_lamports)
                        tk st2.treasury_lamports }

/-- States reachable from some freshly initialized deployment. -/
inductive Reachable : Chain → Prop where
  | start (bump : Nat) (authority : Pubkey) (fee_bps : Nat) (treasury : Pubkey)
      (lamports : List (Pubkey × Nat)) :
      Reachable (Chain.start bump authority fee_bps treasury lamports)
  | step {s s2 : Chain} (h : Reachable s) (hs : Step s s2) : Reachable s2

/-- The config of this program is never mutated after initialization, so
it stays active and unpaused. -/
def ConfigOk (s : Chain) : Prop :=
  s.config.is_active = true ∧ s.config.is_paused = false

/-- No two distinct deliveries are simultaneously in progress on the
same vehicle. -/
def AtMostOneInProgress (s : Chain) : Prop :=
  ∀ k1 k2 d1 d2 vk,
    alist_get s.deliveries k1 = some d1 →
    alist_get s.deliveries k2 = some d2 →
    d1.status = DeliveryStatus.InProgress →
    d2.status = DeliveryStatus.InProgress →
    d1.assigned_vehicle = some vk →
    d2.assigned_vehicle = some vk →
    k1 = k2

/-- A vehicle that is not busy is assigned to no in-progress delivery. -/
def FreeVehicleUnassigned (s : Chain) : Prop :=
  ∀ vk v k d,
    alist_get s.vehicles vk = some v →
    v.is_busy = false →
    alist_get s.deliveries k = some d →
    d.status = DeliveryStatus.InProgress →
    d.assigned_vehicle ≠ some vk

/-- Every in-progress delivery is assigned to a registered vehicle. -/
def InProgressBacked (s : Chain) : Prop :=
  ∀ k d vk,
    alist_get s.deliveries k = some d →
    d.status = DeliveryStatus.InProgress →
    d.assigned_vehicle = some vk →
    ∃ v, alist_get s.vehicles vk = some v

/-- `assigned_vehicle` is set iff the delivery has been accepted. -/
def AssignedIffStarted (s : Chain) : Prop :=
  ∀ k d, alist_get s.deliveries k = some d →
    (d.assigned_vehicle ≠ none ↔
      (d.status = DeliveryStatus.InProgress ∨
       d.status = DeliveryStatus.Completed))

def ChainInv (s : Chain) : Prop :=
  ConfigOk s ∧ AtMostOneInProgress s ∧ FreeVehicleUnassigned s ∧
  InProgressBacked s ∧ AssignedIffStarted s

/-! ### Concrete sample accounts used as witnesses -/

def exCfg : Config := initialize_config 0 1 250 5

def exDelivery : Delivery :=
  { bump := 0, delivery_id := 12345, customer := 2,
    payment_amount := 1000000000,
    pickup_location := "", delivery_location := "",
    status := .InProgress, assigned_vehicle := some 7, created_at := 0,
    accepted_at := some 0, completed_at := none }

def exVehicle : Vehicle :=
  { bump := 0, vehicle_id := "", vehicle_operator := 9, location := "",
    is_active := true, is_busy := true, total_deliveries := 3,
    registered_at := 0 }

/-- A valid pre-completion state: fee 250 bps, payment 1 SOL fully held
in escrow, delivery in progress and assigned to vehicle `7`. -/
def exC1 : CompleteState :=
  { config := exCfg, delivery := exDelivery, vehicle := exVehicle,
    escrow_lamports := 1000000000, vehicle_operator_lamports := 0,
    treasury_lamports := 0 }

/-- The post-state of a successful completion of `exC1`. -/
def exC1post : CompleteState :=
  { config := exCfg
    delivery := { exDelivery with status := .Completed, completed_at := some 0 }
    vehicle := { exVehicle with is_busy := false, total_deliveries := 4 }
    escrow_lamports := 0, vehicle_operator_lamports := 975000000
    treasury_lamports := 25000000 }

/-- Like `exC1` but with `payment_amount = u64::MAX` and `fee_bps = 2`,
so the u64 fee multiply overflows. -/
def exC3 : CompleteState :=
  { config := initialize_config 0 1 2 5
    delivery := { exDelivery with payment_amount := u64Max }
    vehicle := exVehicle, escrow_lamports := 0,
    vehicle_operator_lamports := 0, treasury_lamports := 0 }

/-- Like `exC1` but with `fee_bps = 10001` (above 100%) and
`payment_amount = 1`: the fee rounds down to the full payment and the
completion succeeds. -/
def exC4 : CompleteState :=
  { config := initialize_config 0 1 10001 5
    delivery := { exDelivery with payment_amount := 1 }
    vehicle := exVehicle, escrow_lamports := 1,
    vehicle_operator_lamports := 0, treasury_lamports := 0 }

/-- Like `exC1` but with `fee_bps = 10001` and `payment_amount = 10000`,
large enough that the fee strictly exceeds the payment. -/
def exC4big : CompleteState :=
  { config := initialize_config 0 1 10001 5
    delivery := { exDelivery with payment_amount := 10000 }
    vehicle := exVehicle, escrow_lamports := 10000,
    vehicle_operator_lamports := 0, treasury_lamports := 0 }

/-- An accept attempt on a busy vehicle and an already-in-progress
delivery, under an active unpaused config. -/
def exA5 : AcceptState :=
  { config := exCfg, vehicle := exVehicle, delivery := exDelivery }

/-- A valid accept pre-state: free active vehicle, pending delivery. -/
def exA6 : AcceptState :=
  { config := exCfg
    vehicle := { exVehicle with is_busy := false }
    delivery := { exDelivery with
                  status := .Pending
                  assigned_vehicle := none
                  accepted_at := none } }

/-- Accept pre-state whose delivery is already completed. -/
def exA7 : AcceptState :=
  { config := exCfg
    vehicle := { exVehicle with is_busy := false }
    delivery := { exDelivery with status := .Completed } }

/-- Complete pre-state whose delivery is still pending. -/
def exC5 : CompleteState :=
  { config := exCfg
    delivery := { exDelivery with status := .Pending, assigned_vehicle := none }
    vehicle := exVehicle, escrow_lamports := 1000000000,
    vehicle_operator_lamports := 0, treasury_lamports := 0 }

theorem u64_checked_mul_some {a b c : Nat} (h : u64_checked_mul a b = some c) :
    c = a * b ∧ a * b ≤ u64Max := by
  unfold u64_checked_mul at h
  split at h
  · injection h with h1
    exact ⟨h1.symm, by assumption⟩
  · simp at h

theorem u64_checked_mul_eq_some {a b : Nat} (h : a * b ≤ u64Max) :
    u64_checked_mul a b = some (a * b) := by
  unfold u64_checked_mul
  exact if_pos h

theorem u64_checked_div_some {a b c : Nat} (h : u64_checked_div a b = some c) :
    c = a / b ∧ b ≠ 0 := by
  unfold u64_checked_div at h
  split at h
  · simp at h
  · injection h with h1
    exact ⟨h1.symm, by assumption⟩

theorem u64_checked_sub_some {a b c : Nat} (h : u64_checked_sub a b = some c) :
    c = a - b ∧ b ≤ a := by
  unfold u64_checked_sub at h
  split at h
  · injection h with h1
    exact ⟨h1.symm, by assumption⟩
  · simp at h

theorem u64_checked_sub_eq_some {a b : Nat} (h : b ≤ a) :
    u64_checked_sub a b = some (a - b) := by
  unfold u64_checked_sub
  exact if_pos h

theorem u64_checked_add_some {a b c : Nat} (h : u64_checked_add a b = some c) :
    c = a + b ∧ a + b ≤ u64Max := by
  unfold u64_checked_add at h
  split at h
  · injection h with h1
    exact ⟨h1.symm, by assumption⟩
  · simp at h

theorem fee_calc_some {pa bps fee : Nat} (h : fee_calc pa bps = some fee) :
    fee = pa * bps / 10000 ∧ pa * bps ≤ u64Max := by
  unfold fee_calc at h
  cases hm : u64_checked_mul pa bps with
  | none => rw [hm] at h; simp at h
  | some p =>
      rw [hm] at h
      have h2 : u64_checked_div p 10000 = some fee := h
      obtain ⟨hp, hle⟩ := u64_checked_mul_some hm
      obtain ⟨hf, -⟩ := u64_checked_div_some h2
      subst hp
      exact ⟨hf, hle⟩

theorem fee_calc_eq_some {pa bps : Nat} (h : pa * bps ≤ u64Max) :
    fee_calc pa bps = some (pa * bps / 10000) := by
  unfold fee_calc
  rw [u64_checked_mul_eq_some h]
  show u64_checked_div (pa * bps) 10000 = some (pa * bps / 10000)
  unfold u64_checked_div
  rw [if_neg (by omega : ¬(10000 = 0))]

theorem fee_calc_eq_none_iff (pa bps : Nat) :
    fee_calc pa bps = none ↔ u64Max < pa * bps := by
  constructor
  · intro h
    by_contra hlt
    rw [fee_calc_eq_some (Nat.le_of_not_lt hlt)] at h
    exact absurd h (by simp)
  · intro h
    unfold fee_calc u64_checked_mul
    rw [if_neg (Nat.not_le_of_lt h)]
    rfl

/-- Inversion of a successful `register_vehicle`. -/
theorem register_vehicle_ok {config : Config} {bump : Nat} {vid : String}
    {op : Pubkey} {loc : String} {now : Int} {v : Vehicle}
    (h : register_vehicle config bump vid op loc now = .ok v) :
    config.is_active = true ∧ config.is_paused = false ∧
    v = { bump := bump, vehicle_id := vid, vehicle_operator := op,
          location := loc, is_active := true, is_busy := false,
          total_deliveries := 0, registered_at := now } := by
  unfold register_vehicle at h
  split at h
  · split at h
    · split at h
      · rename_i hc
        simp only [Bool.and_eq_true, Bool.not_eq_eq_eq_not, Bool.not_true] at hc
        injection h with h1
        exact ⟨hc.1, hc.2, h1.symm⟩
      · exact Except.noConfusion h
    · exact Except.noConfusion h
  · exact Except.noConfusion h

/-- Inversion of a successful `create_delivery_order`. -/
theorem create_delivery_order_ok {config : Config} {bump did pa : Nat}
    {pl dl : String} {ck : Pubkey} {cl : Nat} {now : Int}
    {d : Delivery} {cl2 el : Nat}
    (h : create_delivery_order config bump did pa pl dl ck cl now = .ok (d, cl2, el)) :
    config.is_active = true ∧ config.is_paused = false ∧ 0 < pa ∧ pa ≤ cl ∧
    d = { bump := bump, delivery_id := did, customer := ck, payment_amount := pa,
          pickup_location := pl, delivery_location := dl,
          status := .Pending, assigned_vehicle := none, created_at := now,
          accepted_at := none, completed_at := none } ∧
    cl2 = cl - pa ∧ el = pa := by
  unfold create_delivery_order at h
  split at h
  · split at h
    · split at h
      · split at h
        · split at h
          · rename_i hpa hc hcl
            simp only [Bool.and_eq_true, Bool.not_eq_eq_eq_not, Bool.not_true] at hc
            injection h with h1
            injection h1 with hd hrest
            injection hrest with hcl2 hel
            exact ⟨hc.1, hc.2, hpa, hcl, hd.symm, hcl2.symm, hel.symm⟩
          · exact Except.noConfusion h
        · exact Except.noConfusion h
      · exact Except.noConfusion h
    · exact Except.noConfusion h
  · exact Except.noConfusion h

/-- Inversion of a successful `accept_delivery`. -/
theorem accept_delivery_ok {st : AcceptState} {vk sg : Pubkey} {now : Int}
    {st2 : AcceptState} (h : accept_delivery st vk sg now = .ok st2) :
    st.config.is_active = true ∧ st.config.is_paused = false ∧
    st.vehicle.is_active = true ∧ st.vehicle.is_busy = false ∧
    st.delivery.status = DeliveryStatus.Pending ∧
    st2.config = st.config ∧
    st2.vehicle = { st.vehicle with is_busy := true } ∧
    st2.delivery = { st.delivery with
                     status := .InProgress
                     assigned_vehicle := some vk
                     accepted_at := some now } := by
  unfold accept_delivery at h
  split at h
  · split at h
    · split at h
      · rename_i hc hv hs
        simp only [Bool.and_eq_true, Bool.not_eq_eq_eq_not, Bool.not_true] at hc hv
        injection h with h1
        subst h1
        exact ⟨hc.1, hc.2, hv.1, hv.2, hs, rfl, rfl, rfl⟩
      · exact Except.noConfusion h
    · exact Except.noConfusion h
  · exact Except.noConfusion h

/-- Inversion of a successful `complete_delivery`. -/
theorem complete_delivery_ok {st : CompleteState} {vk tk : Pubkey} {now : Int}
    {st2 : CompleteState} (h : complete_delivery st vk tk now = .ok st2) :
    tk = st.config.treasury ∧
    st.config.is_active = true ∧ st.config.is_paused = false ∧
    st.delivery.status = DeliveryStatus.InProgress ∧
    st.delivery.assigned_vehicle = some vk ∧
    ∃ fee vehicle_payment,
      fee_calc st.delivery.payment_amount st.config.fee_bps = some fee ∧
      u64_checked_sub st.delivery.payment_amount fee = some vehicle_payment ∧
      st2.config = st.config ∧
      st2.delivery = { st.delivery with
                       status := .Completed
                       completed_at := some now } ∧
      st2.vehicle = { st.vehicle with
                      is_busy := false
                      total_deliveries := st.vehicle.total_deliveries + 1 } ∧
      st2.escrow_lamports = st.escrow_lamports - vehicle_payment - fee ∧
      st2.vehicle_operator_lamports =
        st.vehicle_operator_lamports + vehicle_payment ∧
      st2.treasury_lamports = st.treasury_lamports + fee := by
  unfold complete_delivery at h
  split at h
  · split at h
    · split at h
      · split at h
        · rename_i htr hc hs ha
          simp only [Bool.and_eq_true, Bool.not_eq_eq_eq_not, Bool.not_true] at hc
          refine ⟨htr, hc.1, hc.2, hs, ha, ?_⟩
          split at h
          · exact Except.noConfusion h
          · rename_i fee hfee
            split at h
            · exact Except.noConfusion h
            · rename_i vp hsub
              split at h
              · split at h
                · split at h
                  · split at h
                    · split at h
                      · exact Except.noConfusion h
                      · rename_i td hadd
                        obtain ⟨htd, -⟩ := u64_checked_add_some hadd
                        injection h with h1
                        subst h1
                        subst htd
                        exact ⟨fee, vp, hfee, hsub, rfl, rfl, rfl, rfl, rfl, rfl⟩
                    · exact Except.noConfusion h
                  · exact Except.noConfusion h
                · exact Except.noConfusion h
              · exact Except.noConfusion h
        · exact Except.noConfusion h
      · exact Except.noConfusion h
    · exact Except.noConfusion h
  · exact Except.noConfusion h

theorem alist_get_set_self {α β : Type} [DecidableEq α]
    (l : List (α × β)) (k : α) (v : β) :
    alist_get (alist_set l k v) k = some v := by
  induction l with
  | nil => simp [alist_set, alist_get]
  | cons hd t ih =>
      obtain ⟨k2, v2⟩ := hd
      unfold alist_set
      by_cases hk : k = k2
      · rw [if_pos hk]
        simp [alist_get]
      · rw [if_neg hk]
        unfold alist_get
        rw [if_neg hk]
        exact ih

theorem alist_get_set_ne {α β : Type} [DecidableEq α]
    (l : List (α × β)) (k k2 : α) (v : β) (h : k2 ≠ k) :
    alist_get (alist_set l k v) k2 = alist_get l k2 := by
  induction l with
  | nil => simp [alist_set, alist_get, h]
  | cons hd t ih =>
      obtain ⟨k3, v3⟩ := hd
      unfold alist_set
      by_cases hk : k = k3
      · rw [if_pos hk]
        subst hk
        unfold alist_get
        rw [if_neg h, if_neg h]
      · rw [if_neg hk]
        unfold alist_get
        by_cases hk2 : k2 = k3
        · rw [if_pos hk2, if_pos hk2]
        · rw [if_neg hk2, if_neg hk2]
          exact ih

/-- Claim C1: for every successful `complete_delivery` whose escrow
holds exactly `payment_amount` (the invariant established by
`create_delivery_order`), the computed fee plus the vehicle payment
equals `payment_amount` exactly; the escrow is debited by exactly
`payment_amount` — `vehicle_payment` credited to the operator account
and `fee` to the treasury account — leaving the escrow's held balance
at zero. -/
theorem complete_delivery_splits_escrow_exactly
    (st : CompleteState) (vk tk : Pubkey) (now : Int) (st2 : CompleteState)
    (hesc : st.escrow_lamports = st.delivery.payment_amount)
    (h : complete_delivery st vk tk now = .ok st2) :
    ∃ fee vehicle_payment,
      fee_calc st.delivery.payment_amount st.config.fee_bps = some fee ∧
      fee + vehicle_payment = st.delivery.payment_amount ∧
      st2.escrow_lamports = 0 ∧
      st2.vehicle_operator_lamports
        = st.vehicle_operator_lamports + vehicle_payment ∧
      st2.treasury_lamports = st.treasury_lamports + fee := by
  obtain ⟨-, -, -, -, -, fee, vp, hfee, hsub, -, -, -, hescrow, hvo, htl⟩ :=
    complete_delivery_ok h
  obtain ⟨hvp, hle⟩ := u64_checked_sub_some hsub
  exact ⟨fee, vp, hfee, by omega, by omega, hvo, htl⟩

theorem complete_delivery_splits_escrow_exactly_witness :
    ∃ fee vehicle_payment,
      fee_calc exC1.delivery.payment_amount exC1.config.fee_bps = some fee ∧
      fee + vehicle_payment = exC1.delivery.payment_amount ∧
      exC1post.escrow_lamports = 0 ∧
      exC1post.vehicle_operator_lamports
        = exC1.vehicle_operator_lamports + vehicle_payment ∧
      exC1post.treasury_lamports = exC1.treasury_lamports + fee :=
  complete_delivery_splits_escrow_exactly exC1 7 5 0 exC1post
    (by decide) (by decide)

/-- Claim C2: whenever the inputs do not overflow the u64 multiply, the
fee computed by `complete_delivery` is `⌊payment_amount * fee_bps /
10000⌋`; the hypotheses cover exactly `fee_bps ∈ [0, 10000]` with
`payment_amount` up to the overflow boundary, and in particular
`fee_bps = 250`, `payment_amount = 1_000_000_000` gives
`fee = 25_000_000` and `vehicle_payment = 975_000_000`. -/
theorem complete_fee_is_floor_bps (pa bps : Nat) (hpa : pa ≤ u64Max)
    (hbps : bps ≤ 10000) (hov : pa * bps ≤ u64Max) :
    fee_calc pa bps = some (pa * bps / 10000) ∧
    fee_calc 1000000000 250 = some 25000000 ∧
    u64_checked_sub 1000000000 25000000 = some 975000000 :=
  ⟨fee_calc_eq_some hov, by decide, by decide⟩

theorem complete_fee_is_floor_bps_witness :
    fee_calc 1000000000 250 = some (1000000000 * 250 / 10000) ∧
    fee_calc 1000000000 250 = some 25000000 ∧
    u64_checked_sub 1000000000 25000000 = some 975000000 :=
  complete_fee_is_floor_bps 1000000000 250 (by decide) (by decide) (by decide)

/-- Counterexample to claim C3: the fee multiply of `complete_delivery`
is performed in u64, not in a wider intermediate representation, so it
can overflow: with `payment_amount = u64::MAX` (a valid u64) and
`fee_bps = 2` (a valid u16) the multiply returns `None` and the
instruction aborts with `MathOverflow`, refuting "the multiply step
never aborts with MathOverflow". -/
theorem fee_mul_overflow_cex :
    exC3.delivery.payment_amount ≤ u64Max ∧
    exC3.config.fee_bps ≤ 65535 ∧
    u64_checked_mul exC3.delivery.payment_amount exC3.config.fee_bps = none ∧
    complete_delivery exC3 7 5 0 = .error (.program .MathOverflow) := by
  decide

/-- Claim C3 as amended: the fee multiply is checked u64 arithmetic; the
fee computation aborts at the multiply exactly when
`payment_amount * fee_bps` exceeds `u64::MAX`, and never aborts below
that bound. -/
theorem fee_mul_aborts_iff_u64_overflow (pa bps : Nat) :
    fee_calc pa bps = none ↔ u64Max < pa * bps :=
  fee_calc_eq_none_iff pa bps

/-- Counterexample to claim C4: under `fee_bps = 10001 > 10000` with a
non-overflowing multiply, `payment_amount = 1` gives
`fee = ⌊1 * 10001 / 10000⌋ = 1 = payment_amount`: the fee does not
exceed the payment, the subtraction does not underflow, and
`complete_delivery` succeeds instead of aborting with `MathOverflow`. -/
theorem high_fee_bps_small_payment_cex :
    10000 < exC4.config.fee_bps ∧
    exC4.delivery.payment_amount * exC4.config.fee_bps ≤ u64Max ∧
    complete_delivery exC4 7 5 0 ≠ .error (.program .MathOverflow) ∧
    (run_complete exC4 7 5 0).2 = none := by
  decide

/-- Claim C4 as amended: under a config with `fee_bps > 10000` (and a
non-overflowing multiply), `complete_delivery` aborts with
`MathOverflow` by `vehicle_payment` underflow precisely on payments
large enough that the floor fee strictly exceeds the payment, namely
whenever `payment_amount * (fee_bps - 10000) ≥ 10000` (in particular
whenever `payment_amount ≥ 10000`); tiny payments can still round the
fee down to the payment itself and complete successfully. -/
theorem high_fee_bps_underflow_aborts
    (st : CompleteState) (vk tk : Pubkey) (now : Int)
    (htr : tk = st.config.treasury)
    (hact : st.config.is_active = true) (hpau : st.config.is_paused = false)
    (hst : st.delivery.status = DeliveryStatus.InProgress)
    (hass : st.delivery.assigned_vehicle = some vk)
    (hbps : 10000 < st.config.fee_bps)
    (hbig : 10000 ≤ st.delivery.payment_amount * (st.config.fee_bps - 10000))
    (hov : st.delivery.payment_amount * st.config.fee_bps ≤ u64Max) :
    complete_delivery st vk tk now = .error (.program .MathOverflow) := by
  have hfee : fee_calc st.delivery.payment_amount st.config.fee_bps
      = some (st.delivery.payment_amount * st.config.fee_bps / 10000) :=
    fee_calc_eq_some hov
  have h1 : (st.delivery.payment_amount + 1) * 10000
      ≤ st.delivery.payment_amount * st.config.fee_bps := by
    calc (st.delivery.payment_amount + 1) * 10000
        = st.delivery.payment_amount * 10000 + 10000 := by ring
      _ ≤ st.delivery.payment_amount * 10000
            + st.delivery.payment_amount * (st.config.fee_bps - 10000) := by
            omega
      _ = st.delivery.payment_amount
            * (10000 + (st.config.fee_bps - 10000)) := by ring
      _ = st.delivery.payment_amount * st.config.fee_bps := by
            rw [Nat.add_sub_cancel' (Nat.le_of_lt hbps)]
  have hgt : st.delivery.payment_amount
      < st.delivery.payment_amount * st.config.fee_bps / 10000 := by
    have h2 := (Nat.le_div_iff_mul_le (by omega : 0 < 10000)).mpr h1
    omega
  have hsub : u64_checked_sub st.delivery.payment_amount
      (st.delivery.payment_amount * st.config.fee_bps / 10000) = none := by
    unfold u64_checked_sub
    rw [if_neg (by omega)]
  unfold complete_delivery
  simp only [htr, hact, hpau, hst, hass, hfee, hsub]
  simp

theorem high_fee_bps_underflow_aborts_witness :
    complete_delivery exC4big 7 5 0 = .error (.program .MathOverflow) :=
  high_fee_bps_underflow_aborts exC4big 7 5 0 (by decide) (by decide)
    (by decide) (by decide) (by decide) (by decide) (by decide) (by decide)

/-- Counterexample to claim C5: `accept_delivery` checks the vehicle's
availability before the delivery's status, so accepting a non-`Pending`
delivery with a busy vehicle (reachable: the vehicle is bound to another
in-progress order) fails with `VehicleNotAvailable`, not
`InvalidDeliveryStatus`. -/
theorem nonpending_accept_cex :
    exA5.delivery.status ≠ DeliveryStatus.Pending ∧
    (run_accept exA5 7 9 0).2 = some (.program .VehicleNotAvailable) ∧
    (run_accept exA5 7 9 0).2 ≠ some (.program .InvalidDeliveryStatus) := by
  decide

/-- Claim C5 as amended: transitions are monotonic along
`Pending → InProgress → Completed`, with the caveat that the
`InvalidDeliveryStatus` error surfaces only once the checks that
precede it pass: given an active, unpaused config and an available
vehicle, `accept_delivery` on a non-`Pending` delivery fails with
`InvalidDeliveryStatus` and leaves all state unchanged; given an
active, unpaused config and a matching treasury, `complete_delivery`
on a non-`InProgress` delivery fails with `InvalidDeliveryStatus` and
leaves all state unchanged. -/
theorem status_transitions_monotonic
    (stA : AcceptState) (vkA sg : Pubkey) (nowA : Int)
    (stC : CompleteState) (vkC tk : Pubkey) (nowC : Int)
    (hca : stA.config.is_active = true) (hcp : stA.config.is_paused = false)
    (hva : stA.vehicle.is_active = true) (hvb : stA.vehicle.is_busy = false)
    (hnp : stA.delivery.status ≠ DeliveryStatus.Pending)
    (htr : tk = stC.config.treasury)
    (hc2a : stC.config.is_active = true) (hc2p : stC.config.is_paused = false)
    (hni : stC.delivery.status ≠ DeliveryStatus.InProgress) :
    run_accept stA vkA sg nowA
      = (stA, some (.program .InvalidDeliveryStatus)) ∧
    run_complete stC vkC tk nowC
      = (stC, some (.program .InvalidDeliveryStatus)) := by
  constructor
  · unfold run_accept accept_delivery
    simp [hca, hcp, hva, hvb, hnp]
  · unfold run_complete complete_delivery
    simp [htr, hc2a, hc2p, hni]

theorem status_transitions_monotonic_witness :
    run_accept exA7 7 9 0 = (exA7, some (.program .InvalidDeliveryStatus)) ∧
    run_complete exC5 7 5 0 = (exC5, some (.program .InvalidDeliveryStatus)) :=
  status_transitions_monotonic exA7 7 9 0 exC5 7 5 0 (by decide) (by decide)
    (by decide) (by decide) (by decide) (by decide) (by decide) (by decide)
    (by decide)

/-- Claim C6: `accept_delivery` requires the operator signer account to
be present but never reads it, so its outcome is identical for any two
signer identities on the same state — in particular for a signer that
is not the vehicle's stored operator. -/
theorem accept_delivery_signer_independent
    (st : AcceptState) (vk s1 s2 : Pubkey) (now : Int) :
    accept_delivery st vk s1 now = accept_delivery st vk s2 now := rfl

/-- Counterexample to claim C7: Anchor validates the
`treasury.key() == config.treasury` constraint before the handler body
runs, so a call whose vehicle differs from `assigned_vehicle` *and*
whose treasury account is wrong fails with `InvalidTreasury`, not
`Unauthorized`, even though the delivery is `InProgress` and the config
active and unpaused. -/
theorem wrong_vehicle_wrong_treasury_cex :
    exC1.delivery.status = DeliveryStatus.InProgress ∧
    exC1.config.is_active = true ∧
    exC1.config.is_paused = false ∧
    exC1.delivery.assigned_vehicle ≠ some 99 ∧
    (run_complete exC1 99 6 0).2 ≠ some (.program .Unauthorized) ∧
    (run_complete exC1 99 6 0).2 = some (.program .InvalidTreasury) := by
  decide

/-- Claim C7 as amended: given an `InProgress` delivery, an active
unpaused config, and a supplied treasury equal to `config.treasury`,
every `complete_delivery` call whose vehicle differs from the
delivery's `assigned_vehicle` fails with `Unauthorized` and performs no
state change. -/
theorem complete_wrong_vehicle_unauthorized
    (st : CompleteState) (vk tk : Pubkey) (now : Int)
    (htr : tk = st.config.treasury)
    (hact : st.config.is_active = true) (hpau : st.config.is_paused = false)
    (hip : st.delivery.status = DeliveryStatus.InProgress)
    (hne : st.delivery.assigned_vehicle ≠ some vk) :
    run_complete st vk tk now = (st, some (.program .Unauthorized)) := by
  unfold run_complete complete_delivery
  simp [htr, hact, hpau, hip, hne]

theorem complete_wrong_vehicle_unauthorized_witness :
    run_complete exC1 99 5 0 = (exC1, some (.program .Unauthorized)) :=
  complete_wrong_vehicle_unauthorized exC1 99 5 0 (by decide) (by decide)
    (by decide) (by decide) (by decide)

/-- Claim C8: every `complete_delivery` call whose supplied treasury
account differs from the treasury recorded in the config fails with
`InvalidTreasury` (the Anchor account constraint, checked before the
handler body) and performs no state change. -/
theorem complete_wrong_treasury_rejected
    (st : CompleteState) (vk tk : Pubkey) (now : Int)
    (hne : tk ≠ st.config.treasury) :
    run_complete st vk tk now = (st, some (.program .InvalidTreasury)) := by
  unfold run_complete complete_delivery
  simp [hne]

theorem complete_wrong_treasury_rejected_witness :
    run_complete exC1 7 6 0 = (exC1, some (.program .InvalidTreasury)) :=
  complete_wrong_treasury_rejected exC1 7 6 0 (by decide)

/-- With an active unpaused config, `accept_delivery` on a busy or
inactive vehicle fails with `VehicleNotAvailable` (the vehicle check
precedes the delivery-status check). -/
theorem accept_delivery_vehicle_unavailable (st : AcceptState)
    (vk sg : Pubkey) (now : Int)
    (hact : st.config.is_active = true) (hpau : st.config.is_paused = false)
    (hbi : st.vehicle.is_busy = true ∨ st.vehicle.is_active = false) :
    accept_delivery st vk sg now = .error (.program .VehicleNotAvailable) := by
  unfold accept_delivery
  rcases hbi with hb | ha
  · simp [hact, hpau, hb]
  · simp [hact, hpau, ha]

theorem chain_inv_start (bump : Nat) (authority : Pubkey) (fee_bps : Nat)
    (treasury : Pubkey) (lamports : List (Pubkey × Nat)) :
    ChainInv (Chain.start bump authority fee_bps treasury lamports) := by
  refine ⟨⟨rfl, rfl⟩, ?_, ?_, ?_, ?_⟩
  · intro k1 k2 d1 d2 vk hg1 hg2 h1 h2 ha1 ha2
    exact Option.noConfusion hg1
  · intro vk v k d hgv hb hgd hip hasg
    exact Option.noConfusion hgv
  · intro k d vk hgd hip hasg
    exact Option.noConfusion hgd
  · intro k d hgd
    exact Option.noConfusion hgd

theorem step_preserves_chain_inv {s s2 : Chain} (hinv : ChainInv s)
    (hs : Step s s2) : ChainInv s2 := by
  obtain ⟨hcfg, hone, hfree, hback, hassign⟩ := hinv
  cases hs with
  | register vk vid op loc bump now v hnew hok =>
      obtain ⟨-, -, hv⟩ := register_vehicle_ok hok
      have hvbusy : v.is_busy = false := by rw [hv]
      refine ⟨hcfg, hone, ?_, ?_, hassign⟩
      · -- FreeVehicleUnassigned: the fresh vehicle has never been assigned
        intro vk2 v2 k d hgv2 hb2 hgd hip hasg
        by_cases hk : vk2 = vk
        · subst hk
          obtain ⟨v0, hv0⟩ := hback k d vk2 hgd hip hasg
          rw [hnew] at hv0
          exact Option.noConfusion hv0
        · rw [alist_get_set_ne _ _ _ _ hk] at hgv2
          exact hfree vk2 v2 k d hgv2 hb2 hgd hip hasg
      · -- InProgressBacked: vehicles only grow
        intro k d vk2 hgd hip hasg
        by_cases hk : vk2 = vk
        · subst hk
          exact ⟨v, alist_get_set_self _ _ _⟩
        · obtain ⟨v0, hv0⟩ := hback k d vk2 hgd hip hasg
          refine ⟨v0, ?_⟩
          rw [alist_get_set_ne _ _ _ _ hk]
          exact hv0
  | create ck did pa pl dl bump now cl d cl2 el hnewd hnewe hcl hok =>
      obtain ⟨-, -, -, -, hd, -, -⟩ := create_delivery_order_ok hok
      have hdst : d.status = DeliveryStatus.Pending := by rw [hd]
      have hdas : d.assigned_vehicle = none := by rw [hd]
      refine ⟨hcfg, ?_, ?_, ?_, ?_⟩
      · -- AtMostOneInProgress: the new delivery is Pending
        intro k1 k2 d1 d2 vk hg1 hg2 h1 h2 ha1 ha2
        by_cases hk1 : k1 = (ck, did)
        · subst hk1
          rw [alist_get_set_self] at hg1
          have hdd := Option.some.inj hg1
          rw [← hdd, hdst] at h1
          exact absurd h1 (by decide)
        · rw [alist_get_set_ne _ _ _ _ hk1] at hg1
          by_cases hk2 : k2 = (ck, did)
          · subst hk2
            rw [alist_get_set_self] at hg2
            have hdd := Option.some.inj hg2
            rw [← hdd, hdst] at h2
            exact absurd h2 (by decide)
          · rw [alist_get_set_ne _ _ _ _ hk2] at hg2
            exact hone k1 k2 d1 d2 vk hg1 hg2 h1 h2 ha1 ha2
      · -- FreeVehicleUnassigned
        intro vk v k d2 hgv hb hgd hip hasg
        by_cases hk : k = (ck, did)
        · subst hk
          rw [alist_get_set_self] at hgd
          have hdd := Option.some.inj hgd
          rw [← hdd, hdst] at hip
          exact absurd hip (by decide)
        · rw [alist_get_set_ne _ _ _ _ hk] at hgd
          exact hfree vk v k d2 hgv hb hgd hip hasg
      · -- InProgressBacked
        intro k d2 vk hgd hip hasg
        by_cases hk : k = (ck, did)
        · subst hk
          rw [alist_get_set_self] at hgd
          have hdd := Option.some.inj hgd
          rw [← hdd, hdst] at hip
          exact absurd hip (by decide)
        · rw [alist_get_set_ne _ _ _ _ hk] at hgd
          exact hback k d2 vk hgd hip hasg
      · -- AssignedIffStarted: Pending with no vehicle on both sides
        intro k d2 hgd
        by_cases hk : k = (ck, did)
        · subst hk
          rw [alist_get_set_self] at hgd
          have hdd := Option.some.inj hgd
          rw [← hdd, hdst, hdas]
          simp
        · rw [alist_get_set_ne _ _ _ _ hk] at hgd
          exact hassign k d2 hgd
  | accept ck did vk sg now v d st2 hv hd hok =>
      obtain ⟨-, -, -, hvb, hds, -, hveh, hdel⟩ := accept_delivery_ok hok
      have hvb2 : v.is_busy = false := hvb
      have hds2 : d.status = DeliveryStatus.Pending := hds
      have hvehb : st2.vehicle.is_busy = true := by rw [hveh]
      have hdst : st2.delivery.status = DeliveryStatus.InProgress := by rw [hdel]
      have hdas : st2.delivery.assigned_vehicle = some vk := by rw [hdel]
      refine ⟨hcfg, ?_, ?_, ?_, ?_⟩
      · -- AtMostOneInProgress
        intro k1 k2 d1 d2 vk2 hg1 hg2 h1 h2 ha1 ha2
        by_cases hk1 : k1 = (ck, did)
        · by_cases hk2 : k2 = (ck, did)
          · rw [hk1, hk2]
          · subst hk1
            rw [alist_get_set_self] at hg1
            have hd1 := Option.some.inj hg1
            rw [← hd1, hdas] at ha1
            have hvk2 := Option.some.inj ha1
            rw [alist_get_set_ne _ _ _ _ hk2] at hg2
            rw [← hvk2] at ha2
            exact absurd ha2 (hfree vk v k2 d2 hv hvb2 hg2 h2)
        · rw [alist_get_set_ne _ _ _ _ hk1] at hg1
          by_cases hk2 : k2 = (ck, did)
          · subst hk2
            rw [alist_get_set_self] at hg2
            have hd2 := Option.some.inj hg2
            rw [← hd2, hdas] at ha2
            have hvk2 := Option.some.inj ha2
            rw [← hvk2] at ha1
            exact absurd ha1 (hfree vk v k1 d1 hv hvb2 hg1 h1)
          · rw [alist_get_set_ne _ _ _ _ hk2] at hg2
            exact hone k1 k2 d1 d2 vk2 hg1 hg2 h1 h2 ha1 ha2
      · -- FreeVehicleUnassigned
        intro vk2 v2 k d2 hgv2 hb2 hgd2 hip2 hasg
        by_cases hvk : vk2 = vk
        · subst hvk
          rw [alist_get_set_self] at hgv2
          have hv2 := Option.some.inj hgv2
          rw [← hv2, hvehb] at hb2
          exact Bool.noConfusion hb2
        · rw [alist_get_set_ne _ _ _ _ hvk] at hgv2
          by_cases hk : k = (ck, did)
          · subst hk
            rw [alist_get_set_self] at hgd2
            have hd2 := Option.some.inj hgd2
            rw [← hd2, hdas] at hasg
            exact hvk (Option.some.inj hasg).symm
          · rw [alist_get_set_ne _ _ _ _ hk] at hgd2
            exact hfree vk2 v2 k d2 hgv2 hb2 hgd2 hip2 hasg
      · -- InProgressBacked
        intro k d2 vk2 hgd2 hip2 hasg
        by_cases hk : k = (ck, did)
        · subst hk
          rw [alist_get_set_self] at hgd2
          have hd2 := Option.some.inj hgd2
          rw [← hd2, hdas] at hasg
          have hvk2 := Option.some.inj hasg
          rw [← hvk2]
          exact ⟨st2.vehicle, alist_get_set_self _ _ _⟩
        · rw [alist_get_set_ne _ _ _ _ hk] at hgd2
          obtain ⟨v0, hv0⟩ := hback k d2 vk2 hgd2 hip2 hasg
          by_cases hvk : vk2 = vk
          · subst hvk
            exact ⟨st2.vehicle, alist_get_set_self _ _ _⟩
          · refine ⟨v0, ?_⟩
            rw [alist_get_set_ne _ _ _ _ hvk]
            exact hv0
      · -- AssignedIffStarted
        intro k d2 hgd2
        by_cases hk : k = (ck, did)
        · subst hk
          rw [alist_get_set_self] at hgd2
          have hd2 := Option.some.inj hgd2
          rw [← hd2, hdas, hdst]
          simp
        · rw [alist_get_set_ne _ _ _ _ hk] at hgd2
          exact hassign k d2 hgd2
  | complete ck did vk vo tk now v d es vol tl st2 hv hd he hvo htl hok =>
      obtain ⟨-, -, -, hds, hda, fee, vp, -, -, -, hdel, hveh, -, -, -⟩ :=
        complete_delivery_ok hok
      have hds2 : d.status = DeliveryStatus.InProgress := hds
      have hda2 : d.assigned_vehicle = some vk := hda
      have hdst : st2.delivery.status = DeliveryStatus.Completed := by rw [hdel]
      have hdas : st2.delivery.assigned_vehicle = d.assigned_vehicle := by
        rw [hdel]
      refine ⟨hcfg, ?_, ?_, ?_, ?_⟩
      · -- AtMostOneInProgress: one in-progress delivery got completed
        intro k1 k2 d1 d2 vk2 hg1 hg2 h1 h2 ha1 ha2
        by_cases hk1 : k1 = (ck, did)
        · subst hk1
          rw [alist_get_set_self] at hg1
          have hd1 := Option.some.inj hg1
          rw [← hd1, hdst] at h1
          exact absurd h1 (by decide)
        · rw [alist_get_set_ne _ _ _ _ hk1] at hg1
          by_cases hk2 : k2 = (ck, did)
          · subst hk2
            rw [alist_get_set_self] at hg2
            have hd2 := Option.some.inj hg2
            rw [← hd2, hdst] at h2
            exact absurd h2 (by decide)
          · rw [alist_get_set_ne _ _ _ _ hk2] at hg2
            exact hone k1 k2 d1 d2 vk2 hg1 hg2 h1 h2 ha1 ha2
      · -- FreeVehicleUnassigned: the freed vehicle has no other
        -- in-progress delivery, by AtMostOneInProgress in the pre-state
        intro vk2 v2 k d2 hgv2 hb2 hgd2 hip2 hasg
        by_cases hk : k = (ck, did)
        · subst hk
          rw [alist_get_set_self] at hgd2
          have hd2 := Option.some.inj hgd2
          rw [← hd2, hdst] at hip2
          exact absurd hip2 (by decide)
        · rw [alist_get_set_ne _ _ _ _ hk] at hgd2
          by_cases hvk : vk2 = vk
          · subst hvk
            exact hk (hone k (ck, did) d2 d vk2 hgd2 hd hip2 hds2 hasg hda2)
          · rw [alist_get_set_ne _ _ _ _ hvk] at hgv2
            exact hfree vk2 v2 k d2 hgv2 hb2 hgd2 hip2 hasg
      · -- InProgressBacked
        intro k d2 vk2 hgd2 hip2 hasg
        by_cases hk : k = (ck, did)
        · subst hk
          rw [alist_get_set_self] at hgd2
          have hd2 := Option.some.inj hgd2
          rw [← hd2, hdst] at hip2
          exact absurd hip2 (by decide)
        · rw [alist_get_set_ne _ _ _ _ hk] at hgd2
          obtain ⟨v0, hv0⟩ := hback k d2 vk2 hgd2 hip2 hasg
          by_cases hvk : vk2 = vk
          · subst hvk
            exact ⟨st2.vehicle, alist_get_set_self _ _ _⟩
          · refine ⟨v0, ?_⟩
            rw [alist_get_set_ne _ _ _ _ hvk]
            exact hv0
      · -- AssignedIffStarted: completion keeps the assigned vehicle
        intro k d2 hgd2
        by_cases hk : k = (ck, did)
        · subst hk
          rw [alist_get_set_self] at hgd2
          have hd2 := Option.some.inj hgd2
          rw [← hd2, hdst, hdas, hda2]
          simp
        · rw [alist_get_set_ne _ _ _ _ hk] at hgd2
          exact hassign k d2 hgd2

theorem reachable_chain_inv (s : Chain) (h : Reachable s) : ChainInv s := by
  induction h with
  | start bump authority fee_bps treasury lamports =>
      exact chain_inv_start bump authority fee_bps treasury lamports
  | step h hs ih => exact step_preserves_chain_inv ih hs

/-- Claim C9: in every reachable chain state, (1) `accept_delivery` on a
busy (or inactive) vehicle fails with `VehicleNotAvailable` — the config
of this program is never mutated after initialization, so the earlier
config check always passes on reachable states; (2) a vehicle's
`is_busy` flag goes from `true` to `false` only through a step that
successfully completes an in-progress delivery assigned to that
vehicle; (3) every vehicle is assigned to at most one in-progress
delivery. -/
theorem busy_vehicle_exclusive (s : Chain) (h : Reachable s) :
    (∀ (v : Vehicle) (d : Delivery) (vk ck : Pubkey) (did : Nat)
        (sg : Pubkey) (now : Int),
        alist_get s.vehicles vk = some v →
        (v.is_busy = true ∨ v.is_active = false) →
        alist_get s.deliveries (ck, did) = some d →
        accept_delivery ⟨s.config, v, d⟩ vk sg now
          = .error (.program .VehicleNotAvailable)) ∧
    (∀ s2, Step s s2 → ∀ (vk : Pubkey) (v v2 : Vehicle),
        alist_get s.vehicles vk = some v →
        alist_get s2.vehicles vk = some v2 →
        v.is_busy = true → v2.is_busy = false →
        ∃ k d d2,
          alist_get s.deliveries k = some d ∧
          alist_get s2.deliveries k = some d2 ∧
          d.status = DeliveryStatus.InProgress ∧
          d2.status = DeliveryStatus.Completed ∧
          d.assigned_vehicle = some vk) ∧
    AtMostOneInProgress s := by
  obtain ⟨⟨hact, hpau⟩, hone, hfree, hback, hassign⟩ := reachable_chain_inv s h
  refine ⟨?_, ?_, hone⟩
  · intro v d vk ck did sg now hgv hbi hgd
    exact accept_delivery_vehicle_unavailable ⟨s.config, v, d⟩ vk sg now
      hact hpau hbi
  · intro s2 hstep vk v v2 hgv hgv2 hb hb2
    cases hstep with
    | register vk0 vid op loc bump now0 v0 hnew hok =>
        by_cases hvk : vk = vk0
        · subst hvk
          rw [hnew] at hgv
          exact Option.noConfusion hgv
        · have hgv2b : alist_get (alist_set s.vehicles vk0 v0) vk = some v2 :=
            hgv2
          rw [alist_get_set_ne _ _ _ _ hvk] at hgv2b
          rw [hgv] at hgv2b
          have hvv := Option.some.inj hgv2b
          rw [← hvv, hb] at hb2
          exact Bool.noConfusion hb2
    | create ck did pa pl dl bump now0 cl d cl2 el hnewd hnewe hcl hok =>
        have hgv2b : alist_get s.vehicles vk = some v2 := hgv2
        rw [hgv] at hgv2b
        have hvv := Option.some.inj hgv2b
        rw [← hvv, hb] at hb2
        exact Bool.noConfusion hb2
    | accept ck did vk0 sg now0 v0 d st2 hv0 hd0 hok =>
        obtain ⟨-, -, -, -, -, -, hveh, -⟩ := accept_delivery_ok hok
        have hvehb : st2.vehicle.is_busy = true := by rw [hveh]
        by_cases hvk : vk = vk0
        · subst hvk
          have hgv2b :
              alist_get (alist_set s.vehicles vk st2.vehicle) vk = some v2 :=
            hgv2
          rw [alist_get_set_self] at hgv2b
          have hvv := Option.some.inj hgv2b
          rw [← hvv, hvehb] at hb2
          exact Bool.noConfusion hb2
        · have hgv2b :
              alist_get (alist_set s.vehicles vk0 st2.vehicle) vk = some v2 :=
            hgv2
          rw [alist_get_set_ne _ _ _ _ hvk] at hgv2b
          rw [hgv] at hgv2b
          have hvv := Option.some.inj hgv2b
          rw [← hvv, hb] at hb2
          exact Bool.noConfusion hb2
    | complete ck did vk0 vo tk now0 v0 d es vol tl st2 hv0 hd0 he0 hvo0 htl0 hok =>
        obtain ⟨-, -, -, hds, hda, fee, vp, -, -, -, hdel, -, -, -, -⟩ :=
          complete_delivery_ok hok
        have hds2 : d.status = DeliveryStatus.InProgress := hds
        have hda2 : d.assigned_vehicle = some vk0 := hda
        have hdst : st2.delivery.status = DeliveryStatus.Completed := by
          rw [hdel]
        by_cases hvk : vk = vk0
        · subst hvk
          refine ⟨(ck, did), d, st2.delivery, hd0, ?_, hds2, hdst, hda2⟩
          exact alist_get_set_self _ _ _
        · have hgv2b :
              alist_get (alist_set s.vehicles vk0 st2.vehicle) vk = some v2 :=
            hgv2
          rw [alist_get_set_ne _ _ _ _ hvk] at hgv2b
          rw [hgv] at hgv2b
          have hvv := Option.some.inj hgv2b
          rw [← hvv, hb] at hb2
          exact Bool.noConfusion hb2

theorem busy_vehicle_exclusive_witness :
    (∀ (v : Vehicle) (d : Delivery) (vk ck : Pubkey) (did : Nat)
        (sg : Pubkey) (now : Int),
        alist_get (Chain.start 0 1 250 5 []).vehicles vk = some v →
        (v.is_busy = true ∨ v.is_active = false) →
        alist_get (Chain.start 0 1 250 5 []).deliveries (ck, did) = some d →
        accept_delivery ⟨(Chain.start 0 1 250 5 []).config, v, d⟩ vk sg now
          = .error (.program .VehicleNotAvailable)) ∧
    (∀ s2, Step (Chain.start 0 1 250 5 []) s2 → ∀ (vk : Pubkey) (v v2 : Vehicle),
        alist_get (Chain.start 0 1 250 5 []).vehicles vk = some v →
        alist_get s2.vehicles vk = some v2 →
        v.is_busy = true → v2.is_busy = false →
        ∃ k d d2,
          alist_get (Chain.start 0 1 250 5 []).deliveries k = some d ∧
          alist_get s2.deliveries k = some d2 ∧
          d.status = DeliveryStatus.InProgress ∧
          d2.status = DeliveryStatus.Completed ∧
          d.assigned_vehicle = some vk) ∧
    AtMostOneInProgress (Chain.start 0 1 250 5 []) :=
  busy_vehicle_exclusive (Chain.start 0 1 250 5 [])
    (Reachable.start 0 1 250 5 [])

/-- Claim C10: in every reachable chain state each stored delivery has
`assigned_vehicle` set iff its status is `InProgress` or `Completed`;
moreover `create_delivery_order` establishes `Pending` with no assigned
vehicle, `accept_delivery` sets `assigned_vehicle` together with
`InProgress`, and `complete_delivery` keeps `assigned_vehicle` while
moving the status to `Completed`. -/
theorem assigned_iff_inprogress_or_completed (s : Chain) (h : Reachable s) :
    AssignedIffStarted s ∧
    (∀ (config : Config) (bump did pa : Nat) (pl dl : String) (ck : Pubkey)
        (cl : Nat) (now : Int) (d : Delivery) (cl2 el : Nat),
        create_delivery_order config bump did pa pl dl ck cl now
          = .ok (d, cl2, el) →
        d.status = DeliveryStatus.Pending ∧ d.assigned_vehicle = none) ∧
    (∀ (st : AcceptState) (vk sg : Pubkey) (now : Int) (st2 : AcceptState),
        accept_delivery st vk sg now = .ok st2 →
        st2.delivery.status = DeliveryStatus.InProgress ∧
        st2.delivery.assigned_vehicle = some vk) ∧
    (∀ (st : CompleteState) (vk tk : Pubkey) (now : Int) (st2 : CompleteState),
        complete_delivery st vk tk now = .ok st2 →
        st2.delivery.status = DeliveryStatus.Completed ∧
        st2.delivery.assigned_vehicle = st.delivery.assigned_vehicle ∧
        st.delivery.assigned_vehicle = some vk) := by
  refine ⟨(reachable_chain_inv s h).2.2.2.2, ?_, ?_, ?_⟩
  · intro config bump did pa pl dl ck cl now d cl2 el hok
    obtain ⟨-, -, -, -, hd, -, -⟩ := create_delivery_order_ok hok
    exact ⟨by rw [hd], by rw [hd]⟩
  · intro st vk sg now st2 hok
    obtain ⟨-, -, -, -, -, -, -, hdel⟩ := accept_delivery_ok hok
    exact ⟨by rw [hdel], by rw [hdel]⟩
  · intro st vk tk now st2 hok
    obtain ⟨-, -, -, -, hda, fee, vp, -, -, -, hdel, -, -, -, -⟩ :=
      complete_delivery_ok hok
    exact ⟨by rw [hdel], by rw [hdel], hda⟩

theorem assigned_iff_inprogress_or_completed_witness :
    AssignedIffStarted (Chain.start 0 1 250 5 []) ∧
    (∀ (config : Config) (bump did pa : Nat) (pl dl : String) (ck : Pubkey)
        (cl : Nat) (now : Int) (d : Delivery) (cl2 el : Nat),
        create_delivery_order config bump did pa pl dl ck cl now
          = .ok (d, cl2, el) →
        d.status = DeliveryStatus.Pending ∧ d.assigned_vehicle = none) ∧
    (∀ (st : AcceptState) (vk sg : Pubkey) (now : Int) (st2 : AcceptState),
        accept_delivery st vk sg now = .ok st2 →
        st2.delivery.status = DeliveryStatus.InProgress ∧
        st2.delivery.assigned_vehicle = some vk) ∧
    (∀ (st : CompleteState) (vk tk : Pubkey) (now : Int) (st2 : CompleteState),
        complete_delivery st vk tk now = .ok st2 →
        st2.delivery.status = DeliveryStatus.Completed ∧
        st2.delivery.assigned_vehicle = st.delivery.assigned_vehicle ∧
        st.delivery.assigned_vehicle = some vk) :=
  assigned_iff_inprogress_or_completed (Chain.start 0 1 250 5 [])
    (Reachable.start 0 1 250 5 [])
